import Mathlib

/-!
Shallow embedding of the tgik-controller secret-sync reconciler
(`controller.go`), together with theorems that settle the specification
claims about it.

The embedding mirrors the final revision of the controller:

* `getSecretsInNS` — lister read filtered to secrets carrying the sync
  annotation key (controller.go lines 189–202);
* `SyncNamespace` — phase 1 applies a create-then-fallback-to-update for
  every source secret, phase 2 deletes annotated secrets in the target
  namespace whose names are absent from the source set
  (controller.go lines 230–274);
* `doSync` — one full reconciliation pass: read source secrets, list
  namespaces, filter targets by the annotation key, run `SyncNamespace`
  on each (controller.go lines 204–228);
* `processNextWorkItem` / `Run` — queue-draining worker step and the
  controller lifecycle (controller.go lines 100–183).

External collaborators are parameters: the cached listers are functions
returning `Except`, and the write client is a record of response
functions (`WriteClient`).  The side effects of a run are reified as the
list of attempted operations (`Op`) plus the list of logged per-item
error messages, exactly in the order the Go code issues/logs them (the
delete set, a Go `sets.String`, is modelled as a deduplicated list, so
its membership is faithful while its iteration order is fixed).
-/

namespace TGIK

/-- The marker annotation key, `secretSyncAnnotation` in the source
(`"eightypercent.net/secretsync"`). -/
def secretSyncAnnotationKey : String := "eightypercent.net/secretsync"

/-- The designated source namespace (`secretSyncSourceNamespace`). -/
def secretSyncSourceNamespace : String := "secretsync"

/-- The fixed work-queue token (`secretSyncKey`). -/
def secretSyncToken : String := "do it"

/-- The static namespace blacklist (`namespaceBlacklist`,
controller.go lines 30–34).  NOTE: in the final revision this variable
is declared but never consulted by `doSync`. -/
def namespaceBlacklist : List String :=
  ["kube-public", "kube-system", secretSyncSourceNamespace]

/-- A Kubernetes `Secret` restricted to the fields the controller
touches: object meta (name, namespace, annotations, resource version,
UID), the data payload (a byte map) and the type. -/
structure Secret where
  name : String
  ns : String
  annotations : List (String × String)
  data : List (String × List Nat)
  resourceVersion : String
  uid : String
  secretType : String
  deriving Repr, DecidableEq

/-- A Kubernetes `Namespace` restricted to the fields the controller
touches. -/
structure Namespace where
  name : String
  annotations : List (String × String)
  deriving Repr, DecidableEq

/-- An attempted write operation against the control plane. -/
inductive Op where
  | create (ns : String) (secret : Secret)
  | update (ns : String) (secret : Secret)
  | delete (ns : String) (name : String)
  deriving Repr, DecidableEq

/-- Result of a `Create` call, distinguishing `AlreadyExists`
(`apierrors.IsAlreadyExists`) from other errors. -/
inductive CreateResult where
  | ok
  | alreadyExists
  | err (msg : String)
  deriving Repr, DecidableEq

/-- The write client (`secretGetter`): responses the control plane gives
to create/update/delete calls, per namespace and object. -/
structure WriteClient where
  createRes : String → Secret → CreateResult
  updateRes : String → Secret → Option String
  deleteRes : String → String → Option String

/-- The cached secret lister: namespace ↦ listing result. -/
def SecretLister : Type := String → Except String (List Secret)

/-- `getSecretsInNS` (controller.go lines 189–202): list the namespace
and keep the secrets whose annotations contain the sync key. -/
def getSecretsInNS (secretLister : SecretLister) (ns : String) :
    Except String (List Secret) :=
  match secretLister ns with
  | Except.error e => Except.error e
  | Except.ok rawSecrets =>
      Except.ok (rawSecrets.filter
        (fun s => (s.annotations.lookup secretSyncAnnotationKey).isSome))

/-- The deep copy made in `SyncNamespace` (controller.go lines 233–237):
everything is copied verbatim, then `Namespace` is retargeted and
`ResourceVersion`/`UID` are cleared. -/
def copySecretForNamespace (secret : Secret) (ns : String) : Secret :=
  { secret with ns := ns, resourceVersion := "", uid := "" }

/-- Body of phase 1 of `SyncNamespace` for one secret (controller.go
lines 232–247): attempt `Create`; on `AlreadyExists` attempt `Update`;
a remaining error is logged.  Returns the ops attempted and the logged
error, if any. -/
def applySecret (w : WriteClient) (ns : String) (secret : Secret) :
    List Op × Option String :=
  let newSecret := copySecretForNamespace secret ns
  match w.createRes ns newSecret with
  | CreateResult.ok => ([Op.create ns newSecret], none)
  | CreateResult.alreadyExists =>
      match w.updateRes ns newSecret with
      | none => ([Op.create ns newSecret, Op.update ns newSecret], none)
      | some e => ([Op.create ns newSecret, Op.update ns newSecret], some e)
  | CreateResult.err e => ([Op.create ns newSecret], some e)

/-- Effects of one `SyncNamespace`/`doSync` call: the operations
attempted, in order, and the error messages logged, in order. -/
structure SyncResult where
  ops : List Op
  opErrors : List String
  deriving Repr, DecidableEq

/-- `SyncNamespace` (controller.go lines 230–274).  Phase 1: for every
source secret, create-or-update its retargeted copy.  Phase 2: read the
annotated secrets of the target namespace (a failed read is logged and
leaves the list empty) and delete those whose names are not among the
source names (`sets.String.Difference`, modelled as filter + dedup). -/
def SyncNamespace (w : WriteClient) (secretLister : SecretLister)
    (secrets : List Secret) (ns : String) : SyncResult :=
  let phase1 := secrets.map (applySecret w ns)
  let createUpdateOps := (phase1.map Prod.fst).flatten
  let createUpdateErrors := phase1.filterMap Prod.snd
  let srcNames := secrets.map Secret.name
  match getSecretsInNS secretLister ns with
  | Except.error e =>
      { ops := createUpdateOps, opErrors := createUpdateErrors ++ [e] }
  | Except.ok targetSecretList =>
      let targetNames := targetSecretList.map Secret.name
      let deleteSet := (targetNames.filter (fun n => !srcNames.contains n)).dedup
      let deleteResults := deleteSet.map (fun n => (Op.delete ns n, w.deleteRes ns n))
      { ops := createUpdateOps ++ deleteResults.map Prod.fst,
        opErrors := createUpdateErrors ++ deleteResults.filterMap Prod.snd }

/-- `doSync` (controller.go lines 204–228).  Read the annotated source
secrets (read failure aborts the pass with that error), list all
namespaces (same), keep namespaces carrying the sync annotation key, and
run `SyncNamespace` on each.  The blacklist is NOT consulted here.  The
final `return err` in the source returns the (by then nil) listing
error, so a completed pass is always `ok`, whatever was logged. -/
def doSync (w : WriteClient) (secretLister : SecretLister)
    (namespaceLister : Except String (List Namespace)) :
    Except String SyncResult :=
  match getSecretsInNS secretLister secretSyncSourceNamespace with
  | Except.error e => Except.error e
  | Except.ok srcSecrets =>
      match namespaceLister with
      | Except.error e => Except.error e
      | Except.ok rawNamespaces =>
          let targetNamespaces := rawNamespaces.filter
            (fun n => (n.annotations.lookup secretSyncAnnotationKey).isSome)
          let results := targetNamespaces.map
            (fun n => SyncNamespace w secretLister srcSecrets n.name)
          Except.ok { ops := (results.map SyncResult.ops).flatten,
                      opErrors := (results.map SyncResult.opErrors).flatten }

/-- Queue interactions of one `processNextWorkItem` call. -/
structure ProcessResult where
  ret : Bool
  doneKeys : List String
  forgetKeys : List String
  rateLimitedKeys : List String
  handledErrors : List String
  deriving Repr, DecidableEq

/-- `processNextWorkItem` (controller.go lines 149–183).  `getResult`
models `queue.Get()`: `none` means the queue reported shutdown
(`quit = true`); `some key` is the dequeued key.  `syncResult` is the
outcome of the `doSync` call made on that key. -/
def processNextWorkItem (getResult : Option String)
    (syncResult : Except String SyncResult) : ProcessResult :=
  match getResult with
  | none =>
      { ret := false, doneKeys := [], forgetKeys := [],
        rateLimitedKeys := [], handledErrors := [] }
  | some key =>
      match syncResult with
      | Except.ok _ =>
          { ret := true, doneKeys := [key], forgetKeys := [key],
            rateLimitedKeys := [], handledErrors := [] }
      | Except.error e =>
          { ret := true, doneKeys := [key], forgetKeys := [],
            rateLimitedKeys := [key], handledErrors := [e] }

/-- Observable lifecycle outcome of `Run`. -/
structure RunOutcome where
  workersStarted : Nat
  syncPassesRun : Nat
  queueShutDown : Bool
  deriving Repr, DecidableEq

/-- `Run` (controller.go lines 100–137).  `cacheSyncOk` is the result of
`cache.WaitForCacheSync`; when it is false, `Run` returns at once (the
deferred block still shuts the queue down and waits on zero workers):
the single worker goroutine is never started, so no `doSync` pass runs.
When it is true, one worker goroutine is started and runs some number
(`workerSyncPasses`) of passes until the stop signal. -/
def Run (cacheSyncOk : Bool) (workerSyncPasses : Nat) : RunOutcome :=
  if cacheSyncOk then
    { workersStarted := 1, syncPassesRun := workerSyncPasses, queueShutDown := true }
  else
    { workersStarted := 0, syncPassesRun := 0, queueShutDown := true }

/-- Names deleted by a list of operations. -/
def deletedNames (ops : List Op) : List String :=
  ops.filterMap (fun o =>
    match o with
    | Op.delete _ n => some n
    | _ => none)

/-- The create operations in a list of operations, as (namespace,
secret) pairs. -/
def createdPairs (ops : List Op) : List (String × Secret) :=
  ops.filterMap (fun o =>
    match o with
    | Op.create n s => some (n, s)
    | _ => none)

/-! ### Concrete fixtures used for witnesses and counterexamples -/

/-- A marked template living in the source namespace. -/
def sampleSecret : Secret :=
  { name := "a", ns := secretSyncSourceNamespace,
    annotations := [(secretSyncAnnotationKey, "do it")],
    data := [("password", [1, 2, 3])],
    resourceVersion := "5", uid := "u1", secretType := "Opaque" }

/-- A second marked template, named `b`. -/
def sampleSecretB : Secret :=
  { sampleSecret with name := "b", uid := "u2" }

/-- A marked replica named `c` sitting in target namespace `x` with no
matching template. -/
def staleSecret : Secret :=
  { name := "c", ns := "x",
    annotations := [(secretSyncAnnotationKey, "copied")],
    data := [], resourceVersion := "7", uid := "u3", secretType := "Opaque" }

/-- A marked replica named `a` sitting in target namespace `x`. -/
def replicaSecretA : Secret :=
  { name := "a", ns := "x",
    annotations := [(secretSyncAnnotationKey, "copied")],
    data := [("password", [1, 2, 3])],
    resourceVersion := "9", uid := "u4", secretType := "Opaque" }

/-- An unmarked secret named `z` in target namespace `x`. -/
def plainSecret : Secret :=
  { name := "z", ns := "x", annotations := [], data := [],
    resourceVersion := "3", uid := "u5", secretType := "Opaque" }

/-- A write client for which every call succeeds. -/
def okClient : WriteClient :=
  { createRes := fun _ _ => CreateResult.ok,
    updateRes := fun _ _ => none,
    deleteRes := fun _ _ => none }

/-- A write client whose deletes all fail. -/
def failingDeleteClient : WriteClient :=
  { createRes := fun _ _ => CreateResult.ok,
    updateRes := fun _ _ => none,
    deleteRes := fun _ _ => some "delete failed" }

/-- Lister: one template in the source namespace, nothing elsewhere. -/
def sampleLister : SecretLister :=
  fun ns => if ns = secretSyncSourceNamespace then Except.ok [sampleSecret]
            else Except.ok []

/-- Lister: one template in the source namespace, the stale marked
replica `c` everywhere else. -/
def staleLister : SecretLister :=
  fun ns => if ns = secretSyncSourceNamespace then Except.ok [sampleSecret]
            else Except.ok [staleSecret]

/-- Lister: the scenario of §8 Scenario B — target `x` already holds
marked replicas `a` and `c`. -/
def scenarioLister : SecretLister :=
  fun ns => if ns = secretSyncSourceNamespace
            then Except.ok [sampleSecret, sampleSecretB]
            else Except.ok [replicaSecretA, staleSecret]

/-- Lister: reads of any namespace other than the source fail. -/
def failTargetLister : SecretLister :=
  fun ns => if ns = secretSyncSourceNamespace then Except.ok [sampleSecret]
            else Except.error "list failed"

/-- Lister: one template in the source namespace, the unmarked secret
`z` everywhere else. -/
def plainLister : SecretLister :=
  fun ns => if ns = secretSyncSourceNamespace then Except.ok [sampleSecret]
            else Except.ok [plainSecret]

/-! ### Helper lemmas -/

theorem deletedNames_append (a b : List Op) :
    deletedNames (a ++ b) = deletedNames a ++ deletedNames b := by
  simp [deletedNames]

theorem createdPairs_append (a b : List Op) :
    createdPairs (a ++ b) = createdPairs a ++ createdPairs b := by
  simp [createdPairs]

/-- Phase 1 of `SyncNamespace` issues no delete for a single secret. -/
theorem deletedNames_applySecret (w : WriteClient) (ns : String) (s : Secret) :
    deletedNames (applySecret w ns s).fst = [] := by
  rcases h : w.createRes ns (copySecretForNamespace s ns) with _ | _ | e
  · simp [applySecret, h, deletedNames]
  · rcases hu : w.updateRes ns (copySecretForNamespace s ns) with _ | e2 <;>
      simp [applySecret, h, hu, deletedNames]
  · simp [applySecret, h, deletedNames]

/-- Phase 1 of `SyncNamespace` issues no delete operations at all. -/
theorem deletedNames_phase1 (w : WriteClient) (ns : String)
    (secrets : List Secret) :
    deletedNames (((secrets.map (applySecret w ns)).map Prod.fst).flatten) = [] := by
  induction secrets with
  | nil => rfl
  | cons s rest ih =>
      simp only [List.map_cons, List.flatten_cons, deletedNames_append,
        deletedNames_applySecret, ih, List.nil_append]

/-- Phase 1 attempts exactly one create per secret, of the retargeted
copy. -/
theorem createdPairs_applySecret (w : WriteClient) (ns : String) (s : Secret) :
    createdPairs (applySecret w ns s).fst =
      [(ns, copySecretForNamespace s ns)] := by
  rcases h : w.createRes ns (copySecretForNamespace s ns) with _ | _ | e
  · simp [applySecret, h, createdPairs]
  · rcases hu : w.updateRes ns (copySecretForNamespace s ns) with _ | e2 <;>
      simp [applySecret, h, hu, createdPairs]
  · simp [applySecret, h, createdPairs]

/-- The creates of phase 1, in order: one per desired secret. -/
theorem createdPairs_phase1 (w : WriteClient) (ns : String)
    (secrets : List Secret) :
    createdPairs (((secrets.map (applySecret w ns)).map Prod.fst).flatten) =
      secrets.map (fun s => (ns, copySecretForNamespace s ns)) := by
  induction secrets with
  | nil => rfl
  | cons s rest ih =>
      simp only [List.map_cons, List.flatten_cons, createdPairs_append,
        createdPairs_applySecret, ih, List.singleton_append]

/-- Delete operations carry exactly the names they were built from. -/
theorem deletedNames_deleteOps (ns : String) (l : List String) :
    deletedNames (l.map (fun n => Op.delete ns n)) = l := by
  simp [deletedNames, List.filterMap_map, Function.comp_def]

/-- Delete operations contain no creates. -/
theorem createdPairs_deleteOps (ns : String) (l : List String) :
    createdPairs (l.map (fun n => Op.delete ns n)) = [] := by
  simp [createdPairs, List.filterMap_map, Function.comp_def]

/-- Unfolding of `SyncNamespace` when the read of the target namespace
fails: only the phase-1 create/update ops, with the read error logged
last. -/
theorem SyncNamespace_eq_of_read_error (w : WriteClient)
    (secretLister : SecretLister) (secrets : List Secret) (ns : String)
    (e : String) (h : getSecretsInNS secretLister ns = Except.error e) :
    SyncNamespace w secretLister secrets ns =
      { ops := ((secrets.map (applySecret w ns)).map Prod.fst).flatten,
        opErrors :=
          (secrets.map (applySecret w ns)).filterMap Prod.snd ++ [e] } := by
  unfold SyncNamespace
  rw [h]

/-- Unfolding of `SyncNamespace` when the read of the target namespace
succeeds: phase-1 ops followed by one delete per name in the set
difference. -/
theorem SyncNamespace_eq_of_read_ok (w : WriteClient)
    (secretLister : SecretLister) (secrets : List Secret) (ns : String)
    (targetSecretList : List Secret)
    (h : getSecretsInNS secretLister ns = Except.ok targetSecretList) :
    SyncNamespace w secretLister secrets ns =
      { ops := ((secrets.map (applySecret w ns)).map Prod.fst).flatten ++
          (((targetSecretList.map Secret.name).filter
              (fun n => !(secrets.map Secret.name).contains n)).dedup).map
            (fun n => Op.delete ns n),
        opErrors := (secrets.map (applySecret w ns)).filterMap Prod.snd ++
          (((targetSecretList.map Secret.name).filter
              (fun n => !(secrets.map Secret.name).contains n)).dedup).filterMap
            (fun n => w.deleteRes ns n) } := by
  unfold SyncNamespace
  rw [h]
  simp [List.map_map, List.filterMap_map, Function.comp_def]

/-! ### Theorems -/

/-- C1: the claim says a namespace in the static blacklist is never
selected as a sync target.  The code violates this: `doSync` filters
target namespaces by the marker annotation key only and never consults
`namespaceBlacklist`, so a marked `kube-system` namespace is synced
into.  This theorem evaluates the pass at that failing input: the
blacklisted, marked namespace `kube-system` receives a create
operation. -/
theorem c1_doSync_targets_blacklisted_namespace :
    "kube-system" ∈ namespaceBlacklist ∧
    doSync okClient sampleLister
        (Except.ok [{ name := "kube-system",
                      annotations := [(secretSyncAnnotationKey, "sure")] }]) =
      Except.ok
        { ops := [Op.create "kube-system"
                    (copySecretForNamespace sampleSecret "kube-system")],
          opErrors := [] } := by
  exact ⟨by simp [namespaceBlacklist], by rfl⟩

/-- C2 counterexample: a pass in which a delete operation fails
(`"delete failed"` is logged) yet `doSync` still returns `ok`, refuting
"doSync returns a non-nil error if at least one operation of the pass
failed". -/
theorem c2_counterexample_failed_delete_reports_ok :
    doSync failingDeleteClient staleLister
        (Except.ok [{ name := "x",
                      annotations := [(secretSyncAnnotationKey, "y")] }]) =
      Except.ok
        { ops := [Op.create "x" (copySecretForNamespace sampleSecret "x"),
                  Op.delete "x" "c"],
          opErrors := ["delete failed"] } := by
  rfl

/-- C2 amended: `doSync` returns an error exactly when one of its two
reads fails — listing the source namespace's secrets or listing the
namespaces; failures of create/update/delete inside `SyncNamespace` are
logged but never propagate to `doSync`'s return value. -/
theorem c2_amended_doSync_error_iff (w : WriteClient)
    (secretLister : SecretLister)
    (namespaceLister : Except String (List Namespace)) :
    (∃ e, doSync w secretLister namespaceLister = Except.error e) ↔
      ((∃ e, secretLister secretSyncSourceNamespace = Except.error e) ∨
       (∃ e, namespaceLister = Except.error e)) := by
  cases hs : secretLister secretSyncSourceNamespace with
  | error e => simp [doSync, getSecretsInNS, hs]
  | ok l =>
      cases hn : namespaceLister with
      | error e => simp [doSync, getSecretsInNS, hs, hn]
      | ok nss => simp [doSync, getSecretsInNS, hs, hn]

/-- C6 counterexample: the replica written into target `x` is a copy
that *does* carry the marker annotation (the deep copy keeps the
template's annotations and only retargets namespace and clears
ResourceVersion/UID), refuting "it carries no marker annotation of its
own". -/
theorem c6_counterexample_replica_carries_marker :
    (SyncNamespace okClient sampleLister [sampleSecret] "x").ops =
      [Op.create "x" (copySecretForNamespace sampleSecret "x")] ∧
    (copySecretForNamespace sampleSecret "x").annotations.lookup
        secretSyncAnnotationKey = some "do it" := by
  exact ⟨by rfl, by rfl⟩

/-- C6 amended: the replica object written by `SyncNamespace` has the
template's name and byte-identical payload, its namespace field set to
the target, ResourceVersion and UID cleared, and every other field —
including the annotations, marker included — an unchanged copy of the
template. -/
theorem c6_amended_copy_fields (secret : Secret) (ns : String) :
    (copySecretForNamespace secret ns).name = secret.name ∧
    (copySecretForNamespace secret ns).data = secret.data ∧
    (copySecretForNamespace secret ns).ns = ns ∧
    (copySecretForNamespace secret ns).resourceVersion = "" ∧
    (copySecretForNamespace secret ns).uid = "" ∧
    (copySecretForNamespace secret ns).annotations = secret.annotations ∧
    (copySecretForNamespace secret ns).secretType = secret.secretType := by
  exact ⟨rfl, rfl, rfl, rfl, rfl, rfl, rfl⟩

/-- C7 counterexample: reading target `x`'s existing replica set fails,
yet a create operation is still applied to `x` in that pass (phase 1
runs before the read), refuting "no create, update, or delete operation
is applied to it in that pass". -/
theorem c7_counterexample_creates_despite_read_failure :
    getSecretsInNS failTargetLister "x" = Except.error "list failed" ∧
    SyncNamespace okClient failTargetLister [sampleSecret] "x" =
      { ops := [Op.create "x" (copySecretForNamespace sampleSecret "x")],
        opErrors := ["list failed"] } := by
  exact ⟨by rfl, by rfl⟩

/-- C7 amended: when reading the existing replica set of a target
namespace fails, `SyncNamespace` still applies every phase-1
create-or-update to that namespace, issues no delete there, and logs
the read error; and `doSync` runs `SyncNamespace` on every marked
namespace of the listing regardless, so the remaining targets are
processed to completion. -/
theorem c7_amended_read_failure_skips_only_delete_phase (w : WriteClient)
    (secretLister : SecretLister) (secrets : List Secret) (ns : String)
    (e : String) (h : getSecretsInNS secretLister ns = Except.error e) :
    (SyncNamespace w secretLister secrets ns).ops =
      ((secrets.map (applySecret w ns)).map Prod.fst).flatten ∧
    deletedNames (SyncNamespace w secretLister secrets ns).ops = [] ∧
    e ∈ (SyncNamespace w secretLister secrets ns).opErrors ∧
    (∀ (rawNamespaces : List Namespace) (srcSecrets : List Secret),
      getSecretsInNS secretLister secretSyncSourceNamespace =
        Except.ok srcSecrets →
      doSync w secretLister (Except.ok rawNamespaces) =
        Except.ok
          { ops := ((rawNamespaces.filter
                (fun n =>
                  (n.annotations.lookup secretSyncAnnotationKey).isSome)).map
                (fun n =>
                  (SyncNamespace w secretLister srcSecrets n.name).ops)).flatten,
            opErrors := ((rawNamespaces.filter
                (fun n =>
                  (n.annotations.lookup secretSyncAnnotationKey).isSome)).map
                (fun n =>
                  (SyncNamespace w secretLister srcSecrets
                    n.name).opErrors)).flatten }) := by
  refine ⟨?_, ?_, ?_, ?_⟩
  · rw [SyncNamespace_eq_of_read_error w secretLister secrets ns e h]
  · rw [SyncNamespace_eq_of_read_error w secretLister secrets ns e h]
    exact deletedNames_phase1 w ns secrets
  · rw [SyncNamespace_eq_of_read_error w secretLister secrets ns e h]
    simp
  · intro rawNamespaces srcSecrets hsrc
    simp [doSync, hsrc, List.map_map, Function.comp_def]

/-- Witness for C7 amended at a concrete input: the read of target `x`
fails, the create of `a`'s copy is still applied, no delete is issued,
and the error is logged. -/
theorem c7_witness :
    getSecretsInNS failTargetLister "x" = Except.error "list failed" ∧
    ((SyncNamespace okClient failTargetLister [sampleSecret] "x").ops =
      ((([sampleSecret]).map (applySecret okClient "x")).map Prod.fst).flatten ∧
    deletedNames
        (SyncNamespace okClient failTargetLister [sampleSecret] "x").ops = [] ∧
    "list failed" ∈
        (SyncNamespace okClient failTargetLister [sampleSecret] "x").opErrors ∧
    (∀ (rawNamespaces : List Namespace) (srcSecrets : List Secret),
      getSecretsInNS failTargetLister secretSyncSourceNamespace =
        Except.ok srcSecrets →
      doSync okClient failTargetLister (Except.ok rawNamespaces) =
        Except.ok
          { ops := ((rawNamespaces.filter
                (fun n =>
                  (n.annotations.lookup secretSyncAnnotationKey).isSome)).map
                (fun n =>
                  (SyncNamespace okClient failTargetLister srcSecrets
                    n.name).ops)).flatten,
            opErrors := ((rawNamespaces.filter
                (fun n =>
                  (n.annotations.lookup secretSyncAnnotationKey).isSome)).map
                (fun n =>
                  (SyncNamespace okClient failTargetLister srcSecrets
                    n.name).opErrors)).flatten })) :=
  ⟨by rfl,
   c7_amended_read_failure_skips_only_delete_phase okClient failTargetLister
     [sampleSecret] "x" "list failed" (by rfl)⟩

/-- C10: a secret in the target namespace that does not carry the
marker annotation is never deleted by `SyncNamespace`, even when its
name is absent from the desired set: the existing set that feeds the
delete computation is the marker-filtered `getSecretsInNS` listing.
(Secret names in one namespace are unique, hence the `Nodup`
hypothesis on the listing's names.) -/
theorem c10_unannotated_secret_never_deleted (w : WriteClient)
    (secretLister : SecretLister) (secrets : List Secret) (ns : String)
    (raw : List Secret) (s : Secret)
    (hlist : secretLister ns = Except.ok raw)
    (hnodup : (raw.map Secret.name).Nodup)
    (hmem : s ∈ raw)
    (hanno : s.annotations.lookup secretSyncAnnotationKey = none) :
    Op.delete ns s.name ∉ (SyncNamespace w secretLister secrets ns).ops := by
  have hok : getSecretsInNS secretLister ns =
      Except.ok (raw.filter
        (fun t => (t.annotations.lookup secretSyncAnnotationKey).isSome)) := by
    simp [getSecretsInNS, hlist]
  rw [SyncNamespace_eq_of_read_ok w secretLister secrets ns _ hok]
  intro hmem2
  rcases List.mem_append.mp hmem2 with hcu | hdel
  · have hname : s.name ∈
        deletedNames (((secrets.map (applySecret w ns)).map Prod.fst).flatten) :=
      List.mem_filterMap.mpr ⟨Op.delete ns s.name, hcu, rfl⟩
    rw [deletedNames_phase1] at hname
    exact absurd hname (List.not_mem_nil _)
  · obtain ⟨n, hn, heq⟩ := List.mem_map.mp hdel
    injection heq with hns hname
    subst hname
    have hn2 := List.mem_dedup.mp hn
    have hn3 := (List.mem_filter.mp hn2).1
    obtain ⟨t, ht, htn⟩ := List.mem_map.mp hn3
    have htraw := (List.mem_filter.mp ht).1
    have htanno := (List.mem_filter.mp ht).2
    have hts : t = s :=
      List.inj_on_of_nodup_map hnodup htraw hmem htn
    rw [hts, hanno] at htanno
    simp at htanno

/-- Witness for C10 at a concrete input: the unmarked secret `z` in
target `x` is not deleted although `z` is absent from the desired
set. -/
theorem c10_witness :
    plainLister "x" = Except.ok [plainSecret] ∧
    ([plainSecret].map Secret.name).Nodup ∧
    plainSecret ∈ [plainSecret] ∧
    plainSecret.annotations.lookup secretSyncAnnotationKey = none ∧
    Op.delete "x" plainSecret.name ∉
      (SyncNamespace okClient plainLister [sampleSecret] "x").ops :=
  ⟨by rfl, by simp, by simp, by rfl,
   c10_unannotated_secret_never_deleted okClient plainLister [sampleSecret]
     "x" [plainSecret] plainSecret (by rfl) (by simp) (by simp) (by rfl)⟩

/-- C8: when the startup cache-sync barrier fails, `Run` starts no
worker, runs no reconciliation pass, and (via the deferred block) shuts
the queue down — the failure is terminal, never retried. -/
theorem c8_run_aborts_without_cache_sync (workerSyncPasses : Nat) :
    (Run false workerSyncPasses).workersStarted = 0 ∧
    (Run false workerSyncPasses).syncPassesRun = 0 ∧
    (Run false workerSyncPasses).queueShutDown = true := by
  exact ⟨rfl, rfl, rfl⟩

/-- An update is attempted for one secret exactly when the create of
its copy reported `AlreadyExists`, and then only of that same copy. -/
theorem update_mem_applySecret (w : WriteClient) (ns : String) (s : Secret)
    (c : Secret) :
    Op.update ns c ∈ (applySecret w ns s).fst ↔
      (c = copySecretForNamespace s ns ∧
       w.createRes ns (copySecretForNamespace s ns) =
         CreateResult.alreadyExists) := by
  rcases h : w.createRes ns (copySecretForNamespace s ns) with _ | _ | e
  · simp [applySecret, h]
  · rcases hu : w.updateRes ns (copySecretForNamespace s ns) with _ | e2 <;>
      simp [applySecret, h, hu]
  · simp [applySecret, h]

/-- Updates in a `SyncNamespace` run all come from phase 1. -/
theorem update_mem_SyncNamespace (w : WriteClient)
    (secretLister : SecretLister) (secrets : List Secret) (ns : String)
    (c : Secret) :
    Op.update ns c ∈ (SyncNamespace w secretLister secrets ns).ops ↔
      ∃ s ∈ secrets, Op.update ns c ∈ (applySecret w ns s).fst := by
  cases h : getSecretsInNS secretLister ns with
  | error e =>
      rw [SyncNamespace_eq_of_read_error w secretLister secrets ns e h]
      simp [List.mem_flatten]
  | ok tl =>
      rw [SyncNamespace_eq_of_read_ok w secretLister secrets ns tl h]
      simp [List.mem_flatten]

/-- C3: for every desired set and every existing (marker-filtered)
replica list read from the target namespace, the names deleted by
`SyncNamespace` are exactly the names of `existing` that are absent
from the desired names — independent of any payload. -/
theorem c3_deleted_names_are_set_difference (w : WriteClient)
    (secretLister : SecretLister) (secrets : List Secret) (ns : String)
    (existing : List Secret) (n : String)
    (h : getSecretsInNS secretLister ns = Except.ok existing) :
    n ∈ deletedNames (SyncNamespace w secretLister secrets ns).ops ↔
      (n ∈ existing.map Secret.name ∧ n ∉ secrets.map Secret.name) := by
  rw [SyncNamespace_eq_of_read_ok w secretLister secrets ns existing h]
  simp only [deletedNames_append, deletedNames_phase1, List.nil_append,
    deletedNames_deleteOps, List.mem_dedup, List.mem_filter]
  simp

/-- Witness for C3 at a concrete input: desired `{a}`, existing `{c}`
in target `x`; the delete set is `{c}`. -/
theorem c3_witness :
    getSecretsInNS staleLister "x" = Except.ok [staleSecret] ∧
    ("c" ∈ deletedNames
        (SyncNamespace okClient staleLister [sampleSecret] "x").ops ↔
      ("c" ∈ [staleSecret].map Secret.name ∧
       "c" ∉ [sampleSecret].map Secret.name)) :=
  ⟨by rfl,
   c3_deleted_names_are_set_difference okClient staleLister [sampleSecret]
     "x" [staleSecret] "c" (by rfl)⟩

/-- C4: `SyncNamespace` issues a create-or-update for every template in
the desired list, unconditionally and in order, with no payload
comparison; and in the §8 Scenario B instance (desired `{a, b}`,
existing `{a, c}` in target `x`) the operations are create-or-update
`a`, create-or-update `b`, delete `c`. -/
theorem c4_create_or_update_every_template (w : WriteClient)
    (secretLister : SecretLister) (secrets : List Secret) (ns : String) :
    createdPairs (SyncNamespace w secretLister secrets ns).ops =
      secrets.map (fun s => (ns, copySecretForNamespace s ns)) ∧
    SyncNamespace okClient scenarioLister [sampleSecret, sampleSecretB] "x" =
      { ops := [Op.create "x" (copySecretForNamespace sampleSecret "x"),
                Op.create "x" (copySecretForNamespace sampleSecretB "x"),
                Op.delete "x" "c"],
        opErrors := [] } := by
  constructor
  · cases h : getSecretsInNS secretLister ns with
    | error e =>
        rw [SyncNamespace_eq_of_read_error w secretLister secrets ns e h]
        exact createdPairs_phase1 w ns secrets
    | ok tl =>
        rw [SyncNamespace_eq_of_read_ok w secretLister secrets ns tl h]
        simp only [createdPairs_append, createdPairs_phase1,
          createdPairs_deleteOps, List.append_nil]
  · rfl

/-- C5: for every secret of the desired set, `SyncNamespace` attempts
the create first, attempts an update of that same copy exactly when the
create reported `AlreadyExists` (no other create error triggers an
update), and a successful update after `AlreadyExists` leaves no error
recorded for that item. -/
theorem c5_create_first_update_on_already_exists (w : WriteClient)
    (secretLister : SecretLister) (secrets : List Secret) (ns : String)
    (s : Secret) (hmem : s ∈ secrets) :
    ((applySecret w ns s).fst.head? =
        some (Op.create ns (copySecretForNamespace s ns))) ∧
    (Op.update ns (copySecretForNamespace s ns) ∈
        (SyncNamespace w secretLister secrets ns).ops ↔
      w.createRes ns (copySecretForNamespace s ns) =
        CreateResult.alreadyExists) ∧
    (w.createRes ns (copySecretForNamespace s ns) =
        CreateResult.alreadyExists →
      w.updateRes ns (copySecretForNamespace s ns) = none →
      (applySecret w ns s).snd = none) := by
  refine ⟨?_, ?_, ?_⟩
  · rcases h : w.createRes ns (copySecretForNamespace s ns) with _ | _ | e
    · simp [applySecret, h]
    · rcases hu : w.updateRes ns (copySecretForNamespace s ns) with _ | e2 <;>
        simp [applySecret, h, hu]
    · simp [applySecret, h]
  · rw [update_mem_SyncNamespace]
    constructor
    · rintro ⟨t, ht, hupd⟩
      obtain ⟨hc, hcr⟩ := (update_mem_applySecret w ns t _).mp hupd
      rw [hc]
      exact hcr
    · intro hcr
      exact ⟨s, hmem, (update_mem_applySecret w ns s _).mpr ⟨rfl, hcr⟩⟩
  · intro h1 h2
    simp [applySecret, h1, h2]

/-- A write client whose creates always report `AlreadyExists` and
whose updates succeed. -/
def existsClient : WriteClient :=
  { createRes := fun _ _ => CreateResult.alreadyExists,
    updateRes := fun _ _ => none,
    deleteRes := fun _ _ => none }

/-- Witness for C5 at a concrete input: every create reports
`AlreadyExists`, so the update of the copy is attempted and no error is
recorded. -/
theorem c5_witness :
    sampleSecret ∈ [sampleSecret] ∧
    (((applySecret existsClient "x" sampleSecret).fst.head? =
        some (Op.create "x" (copySecretForNamespace sampleSecret "x"))) ∧
     (Op.update "x" (copySecretForNamespace sampleSecret "x") ∈
        (SyncNamespace existsClient sampleLister [sampleSecret] "x").ops ↔
      existsClient.createRes "x" (copySecretForNamespace sampleSecret "x") =
        CreateResult.alreadyExists) ∧
     (existsClient.createRes "x" (copySecretForNamespace sampleSecret "x") =
        CreateResult.alreadyExists →
      existsClient.updateRes "x" (copySecretForNamespace sampleSecret "x") =
        none →
      (applySecret existsClient "x" sampleSecret).snd = none)) :=
  ⟨by simp,
   c5_create_first_update_on_already_exists existsClient sampleLister
     [sampleSecret] "x" sampleSecret (by simp)⟩

/-- C9: `processNextWorkItem` returns `false` exactly when the queue
reports shutdown; otherwise it marks the dequeued key `Done`, calls
`Forget` on it exactly when `doSync` returned no error, calls
`AddRateLimited` on it exactly when `doSync` returned an error, and
returns `true`. -/
theorem c9_processNextWorkItem_contract (getResult : Option String)
    (key : String) (syncResult : Except String SyncResult) :
    ((processNextWorkItem getResult syncResult).ret = false ↔
      getResult = none) ∧
    ((processNextWorkItem (some key) syncResult).ret = true) ∧
    ((processNextWorkItem (some key) syncResult).doneKeys = [key]) ∧
    ((processNextWorkItem (some key) syncResult).forgetKeys =
      if syncResult.isOk then [key] else []) ∧
    ((processNextWorkItem (some key) syncResult).rateLimitedKeys =
      if syncResult.isOk then [] else [key]) := by
  cases syncResult <;> cases getResult <;>
    simp [processNextWorkItem, Except.isOk, Except.toBool]

end TGIK
